import Mathlib

/-!
Verification of the AGL Unreal SDK contract layer (wire codec, service
clients, client facade) against its specification.

The development shallowly embeds the C++ sources under
`sdk/unreal/Source/AGL`:

* `AGLTypes.h` — enumerations and request/response records;
* `AGLEmotionService.cpp`, `AGLDialogueService.cpp`, `AGLMemoryService.cpp`
  — per-service wire codecs (enum string tables, request serializers,
  response deserializers) and the response interpretation handlers;
* `AGLClient.cpp` — the facade's `Initialize`/setter logic.

Modelling conventions:

* JSON documents are an inductive `JValue`; a JSON object is an ordered
  association list, which is what Unreal's `FJsonObject` sequential
  `Set*Field` calls produce for the distinct keys used here.
* An HTTP response body is represented by the outcome of parsing it:
  `none` stands for text that `FJsonSerializer::Deserialize` rejects,
  `some v` for text parsing to the JSON value `v`.
* Typed field access (`TryGet*Field`) follows the decode contract: a
  missing or type-mismatched field yields `none`, leaving the
  corresponding response field at its default.
* C++ numeric fields (`float`, `double`, `int32`) are modelled over `Int`;
  every numeric value the claims touch is an integer, and no arithmetic
  beyond equality is performed on them.
* `FString` is `String`; `TMap<FString, FString>` is an ordered
  association list `List (String × String)` built by `tmapAdd`
  (replace-in-place or append, as `TMap::Add` does).
-/

/-- A parsed JSON value (`FJsonValue`). Numbers are modelled over `Int`. -/
inductive JValue where
  | jNull
  | jBool (b : Bool)
  | jNum (n : Int)
  | jStr (s : String)
  | jArr (items : List JValue)
  | jObj (fields : List (String × JValue))

/-- A JSON object is its ordered field list (`FJsonObject::Values`). -/
abbrev JObject := List (String × JValue)

/-- `FJsonValue::TryGetString` under the decode contract: strings only. -/
def JValue.asString : JValue → Option String
  | .jStr s => some s
  | _ => none

/-- `FJsonValue::TryGetNumber`: numbers only. -/
def JValue.asNumber : JValue → Option Int
  | .jNum n => some n
  | _ => none

/-- `FJsonValue::TryGetBool`: booleans only. -/
def JValue.asBool : JValue → Option Bool
  | .jBool b => some b
  | _ => none

/-- `FJsonValue::TryGetArray`: arrays only. -/
def JValue.asArray : JValue → Option (List JValue)
  | .jArr xs => some xs
  | _ => none

/-- `FJsonValue::TryGetObject`: objects only. -/
def JValue.asObject : JValue → Option JObject
  | .jObj fs => some fs
  | _ => none

/-- First-match key lookup in a JSON object (`FJsonObject::TryGetField`). -/
def JObject.getField : JObject → String → Option JValue
  | [], _ => none
  | (k, v) :: rest, key => if k = key then some v else JObject.getField rest key

/-- `FJsonObject::Set*Field`: replace the value in place when the key is
already present, otherwise append the new field. -/
def JObject.setField : JObject → String → JValue → JObject
  | [], key, val => [(key, val)]
  | (k, v) :: rest, key, val =>
    if k = key then (k, val) :: rest
    else (k, v) :: JObject.setField rest key val

/-- `FJsonObject::TryGetStringField`. -/
def JObject.tryGetStringField (o : JObject) (key : String) : Option String :=
  (o.getField key).bind JValue.asString

/-- `FJsonObject::TryGetNumberField`. -/
def JObject.tryGetNumberField (o : JObject) (key : String) : Option Int :=
  (o.getField key).bind JValue.asNumber

/-- `FJsonObject::TryGetBoolField`. -/
def JObject.tryGetBoolField (o : JObject) (key : String) : Option Bool :=
  (o.getField key).bind JValue.asBool

/-- `FJsonObject::TryGetArrayField`: fails when the key is absent or the
value is not an array. -/
def JObject.tryGetArrayField (o : JObject) (key : String) : Option (List JValue) :=
  (o.getField key).bind JValue.asArray

/-- `FJsonObject::TryGetObjectField`. -/
def JObject.tryGetObjectField (o : JObject) (key : String) : Option JObject :=
  (o.getField key).bind JValue.asObject

/-- The key list of a JSON object, in field order. -/
def JObject.keys (o : JObject) : List String := o.map Prod.fst

/-- `FJsonSerializer::Deserialize` into a `TSharedPtr<FJsonObject>`:
succeeds exactly when the body text parses and the top-level value is an
object. -/
def parseTopLevelObject : Option JValue → Option JObject
  | some (.jObj fs) => some fs
  | _ => none

/-- `TMap<FString, FString>::Add`: replace in place or append. -/
def tmapAdd (m : List (String × String)) (key val : String) : List (String × String) :=
  match m with
  | [] => [(key, val)]
  | (k, v) :: rest => if k = key then (k, val) :: rest else (k, v) :: tmapAdd rest key val

/-- `EAGLEmotionType` (`AGLTypes.h`). -/
inductive EAGLEmotionType where
  | Happy | Excited | Amazed | Proud | Satisfied | Cheerful | Grateful
  | Sad | Disappointed | Frustrated | Angry | Worried | Tired | Neutral
deriving DecidableEq

/-- `EAGLEventType` (`AGLTypes.h`). -/
inductive EAGLEventType where
  | Victory | Defeat | Kill | Death | Achievement | LevelUp | Loot
  | SessionStart | SessionEnd
deriving DecidableEq

/-- `EAGLPersona` (`AGLTypes.h`). -/
inductive EAGLPersona where
  | Cheerful | Cool | Cute
deriving DecidableEq

/-- `EAGLMemoryType` (`AGLTypes.h`). -/
inductive EAGLMemoryType where
  | Achievement | Milestone | FirstTime | Dramatic | Conversation
  | Event | Observation
deriving DecidableEq

/-- `FAGLEmotionRequest`. -/
structure FAGLEmotionRequest where
  EventType : EAGLEventType
  Data : List (String × String) := []
  Context : List (String × String) := []
  bForceML : Bool := false
deriving DecidableEq

/-- `FAGLEmotionResponse`. Field defaults follow the header's member
initializers; the `Emotion` member has no initializer and takes the
enum's zero value `Happy` under the host's zero-initialization. -/
structure FAGLEmotionResponse where
  Emotion : EAGLEmotionType := .Happy
  Intensity : Int := 0
  Action : String := ""
  Confidence : Int := 0
  Reasoning : String := ""
  Method : String := ""
  Cost : Int := 0
  bCacheHit : Bool := false
  LatencyMs : Int := 0
deriving DecidableEq

/-- `FAGLDialogueRequest`. -/
structure FAGLDialogueRequest where
  EventType : EAGLEventType
  Emotion : EAGLEmotionType
  Persona : EAGLPersona
  PlayerId : String := ""
  Language : String := "zh"
  Context : List (String × String) := []
  bForceLLM : Bool := false
deriving DecidableEq

/-- `FAGLDialogueResponse`. -/
structure FAGLDialogueResponse where
  Dialogue : String := ""
  Method : String := ""
  Cost : Int := 0
  bUsedSpecialCase : Bool := false
  SpecialCaseReasons : List String := []
  MemoryCount : Int := 0
  bCacheHit : Bool := false
  LatencyMs : Int := 0
deriving DecidableEq

/-- `FAGLCreateMemoryRequest`. -/
structure FAGLCreateMemoryRequest where
  «Type» : EAGLMemoryType
  Content : String := ""
  Emotion : String := ""
  Context : List (String × String) := []
  Importance : Int := 5
deriving DecidableEq

/-- `FAGLMemory`. The `Type` member has no initializer and takes the
enum's zero value `Achievement` under the host's zero-initialization. -/
structure FAGLMemory where
  Id : String := ""
  PlayerId : String := ""
  «Type» : EAGLMemoryType := .Achievement
  Content : String := ""
  Emotion : String := ""
  Importance : Int := 0
  Context : List (String × String) := []
  CreatedAt : String := ""
deriving DecidableEq

/-- `FAGLMemorySearchResult`. -/
structure FAGLMemorySearchResult where
  Memory : FAGLMemory := {}
  SimilarityScore : Int := 0
deriving DecidableEq

/-- `FAGLSearchMemoriesRequest`. -/
structure FAGLSearchMemoriesRequest where
  Query : String := ""
  Limit : Int := 10
deriving DecidableEq

/-- `FAGLGetContextRequest`. -/
structure FAGLGetContextRequest where
  CurrentEvent : String := ""
  Limit : Int := 5
deriving DecidableEq

/-- `FAGLConfig`. `Timeout` (C++ `float`) is modelled over `Int`. -/
structure FAGLConfig where
  ApiKey : String := ""
  ApiBaseUrl : String := "http://localhost:3000"
  EmotionServiceUrl : String := "http://localhost:8000"
  DialogueServiceUrl : String := "http://localhost:8001"
  MemoryServiceUrl : String := "http://localhost:3002"
  Timeout : Int := 30
deriving DecidableEq

/-- The completed HTTP exchange as the response handlers observe it:
`ResponseCode` is `GetResponseCode()`, `Content` is the body text
abstracted by its JSON parse (`none` when the text is not valid JSON). -/
structure HttpResponseData where
  ResponseCode : Int
  Content : Option JValue

namespace UAGLEmotionService

/-- `UAGLEmotionService::EventTypeToString`. -/
def EventTypeToString : EAGLEventType → String
  | .Victory => "player.victory"
  | .Defeat => "player.defeat"
  | .Kill => "player.kill"
  | .Death => "player.death"
  | .Achievement => "player.achievement"
  | .LevelUp => "player.levelup"
  | .Loot => "player.loot"
  | .SessionStart => "player.sessionstart"
  | .SessionEnd => "player.sessionend"

/-- `UAGLEmotionService::StringToEmotionType`: a chain of exact
case-sensitive comparisons falling through to `Neutral`. -/
def StringToEmotionType (EmotionString : String) : EAGLEmotionType :=
  if EmotionString = "happy" then .Happy
  else if EmotionString = "excited" then .Excited
  else if EmotionString = "amazed" then .Amazed
  else if EmotionString = "proud" then .Proud
  else if EmotionString = "satisfied" then .Satisfied
  else if EmotionString = "cheerful" then .Cheerful
  else if EmotionString = "grateful" then .Grateful
  else if EmotionString = "sad" then .Sad
  else if EmotionString = "disappointed" then .Disappointed
  else if EmotionString = "frustrated" then .Frustrated
  else if EmotionString = "angry" then .Angry
  else if EmotionString = "worried" then .Worried
  else if EmotionString = "tired" then .Tired
  else .Neutral

/-- `UAGLEmotionService::SerializeRequest`: `type` and `force_ml` always,
the `data` object unconditionally, the `context` object only when the map
is non-empty. -/
def SerializeRequest (Request : FAGLEmotionRequest) : JObject :=
  let o := JObject.setField [] "type" (.jStr (EventTypeToString Request.EventType))
  let o := o.setField "force_ml" (.jBool Request.bForceML)
  let o := o.setField "data" (.jObj (Request.Data.map fun p => (p.1, .jStr p.2)))
  if 0 < Request.Context.length then
    o.setField "context" (.jObj (Request.Context.map fun p => (p.1, .jStr p.2)))
  else o

/-- `UAGLEmotionService::DeserializeResponse`: defaults on top-level parse
failure, then independently optional field extraction. -/
def DeserializeResponse (content : Option JValue) : FAGLEmotionResponse :=
  match parseTopLevelObject content with
  | none => {}
  | some o =>
    { Emotion := match o.tryGetStringField "emotion" with
        | some s => StringToEmotionType s
        | none => ({} : FAGLEmotionResponse).Emotion
      Intensity := (o.tryGetNumberField "intensity").getD 0
      Confidence := (o.tryGetNumberField "confidence").getD 0
      Cost := (o.tryGetNumberField "cost").getD 0
      LatencyMs := (o.tryGetNumberField "latency_ms").getD 0
      Action := (o.tryGetStringField "action").getD ""
      Reasoning := (o.tryGetStringField "reasoning").getD ""
      Method := (o.tryGetStringField "method").getD ""
      bCacheHit := (o.tryGetBoolField "cache_hit").getD false }

/-- `UAGLEmotionService::HandleEmotionResponse`: transport failure or an
absent response object reports failure; a status other than 200 reports
failure; otherwise the decoded body is reported with success. -/
def HandleEmotionResponse (bWasSuccessful : Bool) (Response : Option HttpResponseData) :
    Bool × FAGLEmotionResponse :=
  match bWasSuccessful, Response with
  | false, _ => (false, {})
  | true, none => (false, {})
  | true, some resp =>
    if resp.ResponseCode ≠ 200 then (false, {})
    else (true, DeserializeResponse resp.Content)

/-- `UAGLEmotionService::CreateVictoryRequest`: a pure constructor with no
I/O, populating `data` with the stringified arguments. -/
def CreateVictoryRequest (bIsMVP : Bool) (WinStreak : Int) : FAGLEmotionRequest :=
  { EventType := .Victory
    Data := tmapAdd (tmapAdd [] "mvp" (if bIsMVP then "true" else "false"))
      "winStreak" (toString WinStreak) }

end UAGLEmotionService

namespace UAGLDialogueService

/-- `UAGLDialogueService::EventTypeToString` (identical table to the
emotion service's copy). -/
def EventTypeToString : EAGLEventType → String
  | .Victory => "player.victory"
  | .Defeat => "player.defeat"
  | .Kill => "player.kill"
  | .Death => "player.death"
  | .Achievement => "player.achievement"
  | .LevelUp => "player.levelup"
  | .Loot => "player.loot"
  | .SessionStart => "player.sessionstart"
  | .SessionEnd => "player.sessionend"

/-- `UAGLDialogueService::EmotionTypeToString`. -/
def EmotionTypeToString : EAGLEmotionType → String
  | .Happy => "happy"
  | .Excited => "excited"
  | .Amazed => "amazed"
  | .Proud => "proud"
  | .Satisfied => "satisfied"
  | .Cheerful => "cheerful"
  | .Grateful => "grateful"
  | .Sad => "sad"
  | .Disappointed => "disappointed"
  | .Frustrated => "frustrated"
  | .Angry => "angry"
  | .Worried => "worried"
  | .Tired => "tired"
  | .Neutral => "neutral"

/-- `UAGLDialogueService::PersonaToString`. -/
def PersonaToString : EAGLPersona → String
  | .Cheerful => "cheerful"
  | .Cool => "cool"
  | .Cute => "cute"

/-- `UAGLDialogueService::SerializeRequest`: the three enum fields and
`force_llm` always; `player_id` and `language` only when non-empty;
`context` only when the map is non-empty. -/
def SerializeRequest (Request : FAGLDialogueRequest) : JObject :=
  let o := JObject.setField [] "event_type" (.jStr (EventTypeToString Request.EventType))
  let o := o.setField "emotion" (.jStr (EmotionTypeToString Request.Emotion))
  let o := o.setField "persona" (.jStr (PersonaToString Request.Persona))
  let o := o.setField "force_llm" (.jBool Request.bForceLLM)
  let o := if Request.PlayerId ≠ "" then o.setField "player_id" (.jStr Request.PlayerId) else o
  let o := if Request.Language ≠ "" then o.setField "language" (.jStr Request.Language) else o
  if 0 < Request.Context.length then
    o.setField "context" (.jObj (Request.Context.map fun p => (p.1, .jStr p.2)))
  else o

/-- `UAGLDialogueService::DeserializeResponse`: defaults on top-level
parse failure; `special_case_reasons` collects, in array order, exactly
the elements on which `TryGetString` succeeds. -/
def DeserializeResponse (content : Option JValue) : FAGLDialogueResponse :=
  match parseTopLevelObject content with
  | none => {}
  | some o =>
    { Dialogue := (o.tryGetStringField "dialogue").getD ""
      Method := (o.tryGetStringField "method").getD ""
      Cost := (o.tryGetNumberField "cost").getD 0
      LatencyMs := (o.tryGetNumberField "latency_ms").getD 0
      bUsedSpecialCase := (o.tryGetBoolField "used_special_case").getD false
      bCacheHit := (o.tryGetBoolField "cache_hit").getD false
      MemoryCount := (o.tryGetNumberField "memory_count").getD 0
      SpecialCaseReasons := match o.tryGetArrayField "special_case_reasons" with
        | some xs => xs.filterMap JValue.asString
        | none => [] }

/-- `UAGLDialogueService::HandleDialogueResponse`. -/
def HandleDialogueResponse (bWasSuccessful : Bool) (Response : Option HttpResponseData) :
    Bool × FAGLDialogueResponse :=
  match bWasSuccessful, Response with
  | false, _ => (false, {})
  | true, none => (false, {})
  | true, some resp =>
    if resp.ResponseCode ≠ 200 then (false, {})
    else (true, DeserializeResponse resp.Content)

end UAGLDialogueService

namespace UAGLMemoryService

/-- `UAGLMemoryService::MemoryTypeToString`. -/
def MemoryTypeToString : EAGLMemoryType → String
  | .Achievement => "achievement"
  | .Milestone => "milestone"
  | .FirstTime => "first_time"
  | .Dramatic => "dramatic"
  | .Conversation => "conversation"
  | .Event => "event"
  | .Observation => "observation"

/-- `UAGLMemoryService::StringToMemoryType`: exact case-sensitive match,
falling through to `Event`. -/
def StringToMemoryType (TypeString : String) : EAGLMemoryType :=
  if TypeString = "achievement" then .Achievement
  else if TypeString = "milestone" then .Milestone
  else if TypeString = "first_time" then .FirstTime
  else if TypeString = "dramatic" then .Dramatic
  else if TypeString = "conversation" then .Conversation
  else if TypeString = "event" then .Event
  else if TypeString = "observation" then .Observation
  else .Event

/-- `UAGLMemoryService::SerializeCreateMemoryRequest`: `type`, `content`
and `importance` always; `emotion` only when non-empty; `context` only
when the map is non-empty. -/
def SerializeCreateMemoryRequest (Request : FAGLCreateMemoryRequest) : JObject :=
  let o := JObject.setField [] "type" (.jStr (MemoryTypeToString Request.«Type»))
  let o := o.setField "content" (.jStr Request.Content)
  let o := o.setField "importance" (.jNum Request.Importance)
  let o := if Request.Emotion ≠ "" then o.setField "emotion" (.jStr Request.Emotion) else o
  if 0 < Request.Context.length then
    o.setField "context" (.jObj (Request.Context.map fun p => (p.1, .jStr p.2)))
  else o

/-- `UAGLMemoryService::SerializeSearchRequest`. -/
def SerializeSearchRequest (Request : FAGLSearchMemoriesRequest) : JObject :=
  let o := JObject.setField [] "query" (.jStr Request.Query)
  o.setField "limit" (.jNum Request.Limit)

/-- `UAGLMemoryService::SerializeContextRequest`. -/
def SerializeContextRequest (Request : FAGLGetContextRequest) : JObject :=
  let o := JObject.setField [] "currentEvent" (.jStr Request.CurrentEvent)
  o.setField "limit" (.jNum Request.Limit)

/-- `UAGLMemoryService::DeserializeMemory`: independently optional field
extraction from an already-parsed object; `context` keeps exactly the
string-valued entries. -/
def DeserializeMemory (o : JObject) : FAGLMemory :=
  { Id := (o.tryGetStringField "id").getD ""
    PlayerId := (o.tryGetStringField "playerId").getD ""
    Content := (o.tryGetStringField "content").getD ""
    Emotion := (o.tryGetStringField "emotion").getD ""
    CreatedAt := (o.tryGetStringField "createdAt").getD ""
    Importance := (o.tryGetNumberField "importance").getD 0
    «Type» := match o.tryGetStringField "type" with
      | some s => StringToMemoryType s
      | none => ({} : FAGLMemory).«Type»
    Context := match o.tryGetObjectField "context" with
      | some co => co.filterMap fun p =>
          match p.2.asString with
          | some v => some (p.1, v)
          | none => none
      | none => [] }

/-- `UAGLMemoryService::DeserializeSearchResults`: empty on top-level
parse failure or a missing/non-array `results` field; per-element,
non-object entries are skipped, a missing/non-object `memory` sub-field
leaves the default memory. -/
def DeserializeSearchResults (content : Option JValue) : List FAGLMemorySearchResult :=
  match parseTopLevelObject content with
  | none => []
  | some o =>
    match o.tryGetArrayField "results" with
    | none => []
    | some xs => xs.filterMap fun v =>
        match v.asObject with
        | none => none
        | some ro => some
            { SimilarityScore := (ro.tryGetNumberField "similarityScore").getD 0
              Memory := match ro.tryGetObjectField "memory" with
                | some mo => DeserializeMemory mo
                | none => {} }

/-- `UAGLMemoryService::DeserializeMemories`: empty on top-level parse
failure or a missing/non-array `memories` field; non-object entries are
skipped. -/
def DeserializeMemories (content : Option JValue) : List FAGLMemory :=
  match parseTopLevelObject content with
  | none => []
  | some o =>
    match o.tryGetArrayField "memories" with
    | none => []
    | some xs => xs.filterMap fun v =>
        match v.asObject with
        | none => none
        | some mo => some (DeserializeMemory mo)

/-- `UAGLMemoryService::HandleCreateMemoryResponse`: accepts status 200
or 201; unlike the other handlers, a top-level parse failure on an
accepted status reports failure. -/
def HandleCreateMemoryResponse (bWasSuccessful : Bool) (Response : Option HttpResponseData) :
    Bool × FAGLMemory :=
  match bWasSuccessful, Response with
  | false, _ => (false, {})
  | true, none => (false, {})
  | true, some resp =>
    if resp.ResponseCode ≠ 200 ∧ resp.ResponseCode ≠ 201 then (false, {})
    else
      match parseTopLevelObject resp.Content with
      | none => (false, {})
      | some o => (true, DeserializeMemory o)

/-- `UAGLMemoryService::HandleSearchMemoriesResponse`. -/
def HandleSearchMemoriesResponse (bWasSuccessful : Bool) (Response : Option HttpResponseData) :
    Bool × List FAGLMemorySearchResult :=
  match bWasSuccessful, Response with
  | false, _ => (false, [])
  | true, none => (false, [])
  | true, some resp =>
    if resp.ResponseCode ≠ 200 then (false, [])
    else (true, DeserializeSearchResults resp.Content)

/-- `UAGLMemoryService::HandleGetMemoriesResponse` (shared by `GetContext`
and `GetMemories`). -/
def HandleGetMemoriesResponse (bWasSuccessful : Bool) (Response : Option HttpResponseData) :
    Bool × List FAGLMemory :=
  match bWasSuccessful, Response with
  | false, _ => (false, [])
  | true, none => (false, [])
  | true, some resp =>
    if resp.ResponseCode ≠ 200 then (false, [])
    else (true, DeserializeMemories resp.Content)

end UAGLMemoryService

/-- The per-service state set by `Initialize(url, apiKey, timeout)` on a
service client. -/
structure ServiceState where
  ServiceUrl : String
  ApiKey : String
  Timeout : Int
deriving DecidableEq

/-- The observable state of a `UAGLClient` instance: the stored config,
the two id fields, the three service pointers (`none` = null, as in a
freshly constructed object) and the `bInitialized` flag. -/
structure UAGLClientState where
  Config : FAGLConfig := {}
  PlayerId : String := ""
  GameId : String := ""
  EmotionService : Option ServiceState := none
  DialogueService : Option ServiceState := none
  MemoryService : Option ServiceState := none
  bInitialized : Bool := false
deriving DecidableEq

/-- `UAGLClient::Initialize`: stores the config first, then validates the
API key; on an empty key it returns with nothing else changed, otherwise
it constructs the three services and sets `bInitialized`. -/
def UAGLClientState.Initialize (s : UAGLClientState) (InConfig : FAGLConfig) : UAGLClientState :=
  let s := { s with Config := InConfig }
  if s.Config.ApiKey = "" then s
  else
    { s with
      EmotionService := some ⟨s.Config.EmotionServiceUrl, s.Config.ApiKey, s.Config.Timeout⟩
      DialogueService := some ⟨s.Config.DialogueServiceUrl, s.Config.ApiKey, s.Config.Timeout⟩
      MemoryService := some ⟨s.Config.MemoryServiceUrl, s.Config.ApiKey, s.Config.Timeout⟩
      bInitialized := true }

/-- `UAGLClient::SetPlayerId`. -/
def UAGLClientState.SetPlayerId (s : UAGLClientState) (InPlayerId : String) : UAGLClientState :=
  { s with PlayerId := InPlayerId }

/-- `UAGLClient::SetGameId`. -/
def UAGLClientState.SetGameId (s : UAGLClientState) (InGameId : String) : UAGLClientState :=
  { s with GameId := InGameId }

/-- The encode range of `EmotionTypeToString`: the emotion wire table. -/
def emotionWireStrings : List String :=
  ["happy", "excited", "amazed", "proud", "satisfied", "cheerful", "grateful",
   "sad", "disappointed", "frustrated", "angry", "worried", "tired", "neutral"]

/-- The encode range of `MemoryTypeToString`: the memory wire table. -/
def memoryWireStrings : List String :=
  ["achievement", "milestone", "first_time", "dramatic", "conversation",
   "event", "observation"]

/-- Normal form of the dialogue request serializer: the four mandatory
fields, then each conditional field in serializer order. -/
theorem dialogueSerializeRequest_eq (r : FAGLDialogueRequest) :
    UAGLDialogueService.SerializeRequest r =
      [("event_type", .jStr (UAGLDialogueService.EventTypeToString r.EventType)),
       ("emotion", .jStr (UAGLDialogueService.EmotionTypeToString r.Emotion)),
       ("persona", .jStr (UAGLDialogueService.PersonaToString r.Persona)),
       ("force_llm", .jBool r.bForceLLM)]
      ++ (if r.PlayerId = "" then [] else [("player_id", JValue.jStr r.PlayerId)])
      ++ (if r.Language = "" then [] else [("language", JValue.jStr r.Language)])
      ++ (if 0 < r.Context.length then
            [("context", JValue.jObj (r.Context.map fun p => (p.1, .jStr p.2)))] else []) := by
  by_cases h1 : r.PlayerId = "" <;> by_cases h2 : r.Language = "" <;>
    by_cases h3 : 0 < r.Context.length <;>
    simp [UAGLDialogueService.SerializeRequest, JObject.setField, h1, h2, h3]

/-- Normal form of the emotion request serializer: `type`, `force_ml` and
the `data` object always, `context` only when non-empty. -/
theorem emotionSerializeRequest_eq (r : FAGLEmotionRequest) :
    UAGLEmotionService.SerializeRequest r =
      [("type", .jStr (UAGLEmotionService.EventTypeToString r.EventType)),
       ("force_ml", .jBool r.bForceML),
       ("data", JValue.jObj (r.Data.map fun p => (p.1, .jStr p.2)))]
      ++ (if 0 < r.Context.length then
            [("context", JValue.jObj (r.Context.map fun p => (p.1, .jStr p.2)))] else []) := by
  by_cases h : 0 < r.Context.length <;>
    simp [UAGLEmotionService.SerializeRequest, JObject.setField, h]

/-- Normal form of the create-memory request serializer: `type`, `content`
and `importance` always, `emotion` and `context` only when non-empty. -/
theorem UAGLMemoryService.serializeCreateMemoryRequest_eq (r : FAGLCreateMemoryRequest) :
    SerializeCreateMemoryRequest r =
      [("type", .jStr (MemoryTypeToString r.«Type»)),
       ("content", JValue.jStr r.Content),
       ("importance", JValue.jNum r.Importance)]
      ++ (if r.Emotion = "" then [] else [("emotion", JValue.jStr r.Emotion)])
      ++ (if 0 < r.Context.length then
            [("context", JValue.jObj (r.Context.map fun p => (p.1, .jStr p.2)))] else []) := by
  by_cases h1 : r.Emotion = "" <;> by_cases h2 : 0 < r.Context.length <;>
    simp [SerializeCreateMemoryRequest, JObject.setField, h1, h2]

/-- Claim C7: encoding a `DialogueRequest` with `eventType=Victory`,
`emotion=Happy`, `persona=Cheerful`, `language="en"`, `forceLlm=false`
yields a payload containing the pairs `"event_type":"player.victory"`,
`"emotion":"happy"`, `"persona":"cheerful"`, `"language":"en"` and
`"force_llm":false`. -/
theorem dialogueRequest_concrete_encoding :
    ("event_type", JValue.jStr "player.victory") ∈ UAGLDialogueService.SerializeRequest
      { EventType := .Victory, Emotion := .Happy, Persona := .Cheerful,
        Language := "en", bForceLLM := false } ∧
    ("emotion", JValue.jStr "happy") ∈ UAGLDialogueService.SerializeRequest
      { EventType := .Victory, Emotion := .Happy, Persona := .Cheerful,
        Language := "en", bForceLLM := false } ∧
    ("persona", JValue.jStr "cheerful") ∈ UAGLDialogueService.SerializeRequest
      { EventType := .Victory, Emotion := .Happy, Persona := .Cheerful,
        Language := "en", bForceLLM := false } ∧
    ("language", JValue.jStr "en") ∈ UAGLDialogueService.SerializeRequest
      { EventType := .Victory, Emotion := .Happy, Persona := .Cheerful,
        Language := "en", bForceLLM := false } ∧
    ("force_llm", JValue.jBool false) ∈ UAGLDialogueService.SerializeRequest
      { EventType := .Victory, Emotion := .Happy, Persona := .Cheerful,
        Language := "en", bForceLLM := false } := by
  have h : UAGLDialogueService.SerializeRequest
      { EventType := .Victory, Emotion := .Happy, Persona := .Cheerful,
        Language := "en", bForceLLM := false } =
      [("event_type", JValue.jStr "player.victory"),
       ("emotion", JValue.jStr "happy"),
       ("persona", JValue.jStr "cheerful"),
       ("force_llm", JValue.jBool false),
       ("language", JValue.jStr "en")] := rfl
  refine ⟨?_, ?_, ?_, ?_, ?_⟩ <;> rw [h] <;> simp

/-- Claim C6: the serialized dialogue payload has a `player_id` key
exactly when `PlayerId` is non-empty, and then carries that value. -/
theorem dialogue_playerId_key_iff_nonempty (r : FAGLDialogueRequest) :
    (("player_id" ∈ (UAGLDialogueService.SerializeRequest r).keys) ↔ r.PlayerId ≠ "") ∧
    (r.PlayerId ≠ "" →
      ("player_id", JValue.jStr r.PlayerId) ∈ UAGLDialogueService.SerializeRequest r) := by
  by_cases h1 : r.PlayerId = "" <;> by_cases h2 : r.Language = "" <;>
    by_cases h3 : 0 < r.Context.length <;>
    simp [dialogueSerializeRequest_eq, JObject.keys, h1, h2, h3]

/-- Witness for C6 at a concrete request with a non-empty `PlayerId`. -/
theorem dialogue_playerId_key_iff_nonempty_witness :
    ("player_id", JValue.jStr "player-123") ∈ UAGLDialogueService.SerializeRequest
      { EventType := .Achievement, Emotion := .Proud, Persona := .Cool,
        PlayerId := "player-123" } :=
  (dialogue_playerId_key_iff_nonempty
    { EventType := .Achievement, Emotion := .Proud, Persona := .Cool,
      PlayerId := "player-123" }).2 (by decide)

/-- Claim C10: the event-type enum travels under the key `type` in every
serialized emotion request and under the key `event_type` in every
serialized dialogue request, never the other way around. -/
theorem eventType_key_differs_per_service (er : FAGLEmotionRequest) (dr : FAGLDialogueRequest) :
    (("type", JValue.jStr (UAGLEmotionService.EventTypeToString er.EventType)) ∈
      UAGLEmotionService.SerializeRequest er) ∧
    "event_type" ∉ (UAGLEmotionService.SerializeRequest er).keys ∧
    (("event_type", JValue.jStr (UAGLDialogueService.EventTypeToString dr.EventType)) ∈
      UAGLDialogueService.SerializeRequest dr) ∧
    "type" ∉ (UAGLDialogueService.SerializeRequest dr).keys := by
  by_cases h0 : 0 < er.Context.length <;> by_cases h1 : dr.PlayerId = "" <;>
    by_cases h2 : dr.Language = "" <;> by_cases h3 : 0 < dr.Context.length <;>
    simp [emotionSerializeRequest_eq, dialogueSerializeRequest_eq,
      JObject.keys, h0, h1, h2, h3]

/-- Claim C2: across the three request encoders, the required fields
(the enum-keyed `type`/`event_type`/`emotion`/`persona`, the emotion
request's `data` object, the memory request's `content`) are always
emitted, booleans and numbers (`force_ml`, `force_llm`, `importance`)
are always emitted, and every remaining string- or map-valued field
(`player_id`, `language`, the `context` maps, the memory request's
`emotion`) appears in the payload exactly when it is non-empty. -/
theorem request_field_omission_rules (er : FAGLEmotionRequest) (dr : FAGLDialogueRequest)
    (mr : FAGLCreateMemoryRequest) :
    ("force_ml" ∈ (UAGLEmotionService.SerializeRequest er).keys) ∧
    (("context" ∈ (UAGLEmotionService.SerializeRequest er).keys) ↔ er.Context ≠ []) ∧
    ("force_llm" ∈ (UAGLDialogueService.SerializeRequest dr).keys) ∧
    (("player_id" ∈ (UAGLDialogueService.SerializeRequest dr).keys) ↔ dr.PlayerId ≠ "") ∧
    (("language" ∈ (UAGLDialogueService.SerializeRequest dr).keys) ↔ dr.Language ≠ "") ∧
    (("context" ∈ (UAGLDialogueService.SerializeRequest dr).keys) ↔ dr.Context ≠ []) ∧
    ("importance" ∈ (UAGLMemoryService.SerializeCreateMemoryRequest mr).keys) ∧
    (("emotion" ∈ (UAGLMemoryService.SerializeCreateMemoryRequest mr).keys) ↔ mr.Emotion ≠ "") ∧
    (("context" ∈ (UAGLMemoryService.SerializeCreateMemoryRequest mr).keys) ↔ mr.Context ≠ []) := by
  by_cases h0 : er.Context = [] <;> by_cases h1 : dr.PlayerId = "" <;>
    by_cases h2 : dr.Language = "" <;> by_cases h3 : dr.Context = [] <;>
    by_cases h4 : mr.Emotion = "" <;> by_cases h5 : mr.Context = [] <;>
    simp [emotionSerializeRequest_eq, dialogueSerializeRequest_eq,
      UAGLMemoryService.serializeCreateMemoryRequest_eq, JObject.keys,
      List.length_pos, h0, h1, h2, h3, h4, h5]

/-- Claim C8: `CreateVictoryRequest` is a pure constructor whose result
has `eventType=Victory` and a `data` map holding exactly the keys `mvp`
(the stringified flag) and `winStreak` (the decimal string); in
particular `CreateVictoryRequest true 3` yields
`{"mvp":"true","winStreak":"3"}`. -/
theorem createVictoryRequest_contents (b : Bool) (n : Int) :
    (UAGLEmotionService.CreateVictoryRequest b n).EventType = .Victory ∧
    (UAGLEmotionService.CreateVictoryRequest b n).Data =
      [("mvp", if b then "true" else "false"), ("winStreak", toString n)] ∧
    (UAGLEmotionService.CreateVictoryRequest true 3).Data =
      [("mvp", "true"), ("winStreak", "3")] := by
  refine ⟨rfl, ?_, ?_⟩
  · simp [UAGLEmotionService.CreateVictoryRequest, tmapAdd]
  · decide

/-- Claim C3: every `EmotionType` and every `MemoryType` value survives
the encode-then-decode round trip, and every string outside the
respective wire table decodes to the enum's designated default
(`Neutral`, resp. `Event`). -/
theorem enum_wire_roundtrip :
    (∀ e : EAGLEmotionType,
      UAGLEmotionService.StringToEmotionType (UAGLDialogueService.EmotionTypeToString e) = e) ∧
    (∀ m : EAGLMemoryType,
      UAGLMemoryService.StringToMemoryType (UAGLMemoryService.MemoryTypeToString m) = m) ∧
    (∀ s : String, s ∉ emotionWireStrings →
      UAGLEmotionService.StringToEmotionType s = .Neutral) ∧
    (∀ s : String, s ∉ memoryWireStrings →
      UAGLMemoryService.StringToMemoryType s = .Event) := by
  refine ⟨?_, ?_, ?_, ?_⟩
  · intro e; cases e <;> decide
  · intro m; cases m <;> decide
  · intro s hs
    simp only [emotionWireStrings, List.mem_cons, List.not_mem_nil, or_false, not_or] at hs
    obtain ⟨h1, h2, h3, h4, h5, h6, h7, h8, h9, h10, h11, h12, h13, h14⟩ := hs
    simp [UAGLEmotionService.StringToEmotionType,
      h1, h2, h3, h4, h5, h6, h7, h8, h9, h10, h11, h12, h13]
  · intro s hs
    simp only [memoryWireStrings, List.mem_cons, List.not_mem_nil, or_false, not_or] at hs
    obtain ⟨h1, h2, h3, h4, h5, h6, h7⟩ := hs
    simp [UAGLMemoryService.StringToMemoryType, h1, h2, h3, h4, h5, h6, h7]

/-- Witness for C3: a round trip through each table and the default
decode of a string outside both tables. -/
theorem enum_wire_roundtrip_witness :
    UAGLEmotionService.StringToEmotionType
      (UAGLDialogueService.EmotionTypeToString .Tired) = .Tired ∧
    UAGLMemoryService.StringToMemoryType
      (UAGLMemoryService.MemoryTypeToString .FirstTime) = .FirstTime ∧
    UAGLEmotionService.StringToEmotionType "bogus" = .Neutral ∧
    UAGLMemoryService.StringToMemoryType "bogus" = .Event :=
  ⟨enum_wire_roundtrip.1 .Tired, enum_wire_roundtrip.2.1 .FirstTime,
   enum_wire_roundtrip.2.2.1 "bogus" (by decide),
   enum_wire_roundtrip.2.2.2 "bogus" (by decide)⟩

/-- Claim C9: initializing the facade with an empty API key leaves
`bInitialized` and the three service pointers exactly as they were (on a
fresh client: false and null), yet the `Config` field has already been
overwritten with the rejected config, so `GetConfig()` returns it rather
than the prior state. -/
theorem initialize_empty_apiKey_not_atomic (s0 : UAGLClientState) (c : FAGLConfig)
    (h : c.ApiKey = "") :
    (s0.Initialize c).Config = c ∧
    (s0.Initialize c).bInitialized = s0.bInitialized ∧
    (s0.Initialize c).EmotionService = s0.EmotionService ∧
    (s0.Initialize c).DialogueService = s0.DialogueService ∧
    (s0.Initialize c).MemoryService = s0.MemoryService ∧
    (UAGLClientState.Initialize {} c).bInitialized = false ∧
    (UAGLClientState.Initialize {} c).EmotionService = none ∧
    (UAGLClientState.Initialize {} c).DialogueService = none ∧
    (UAGLClientState.Initialize {} c).MemoryService = none ∧
    (UAGLClientState.Initialize {} c).Config = c := by
  simp [UAGLClientState.Initialize, h]

/-- Witness for C9 at the all-default (empty API key) config. -/
theorem initialize_empty_apiKey_not_atomic_witness :
    (UAGLClientState.Initialize {} {}).bInitialized = false ∧
    (UAGLClientState.Initialize {} {}).EmotionService = none ∧
    (UAGLClientState.Initialize {} {}).Config = ({} : FAGLConfig) := by
  have h := initialize_empty_apiKey_not_atomic {} {} rfl
  exact ⟨h.2.2.2.2.2.1, h.2.2.2.2.2.2.1, h.1⟩

/-- Claim C4: on transport failure, an absent response object, or an HTTP
status outside the accepted set (200 everywhere, plus 201 only for memory
creation), every handler reports failure with a default response or empty
list, regardless of the body content. -/
theorem failure_paths_report_failure (ok : Bool) (resp : Option HttpResponseData) :
    ((ok = false ∨ resp = none ∨ ∀ r, resp = some r → r.ResponseCode ≠ 200) →
      UAGLEmotionService.HandleEmotionResponse ok resp = (false, {}) ∧
      UAGLDialogueService.HandleDialogueResponse ok resp = (false, {}) ∧
      UAGLMemoryService.HandleSearchMemoriesResponse ok resp = (false, []) ∧
      UAGLMemoryService.HandleGetMemoriesResponse ok resp = (false, [])) ∧
    ((ok = false ∨ resp = none ∨
        ∀ r, resp = some r → r.ResponseCode ≠ 200 ∧ r.ResponseCode ≠ 201) →
      UAGLMemoryService.HandleCreateMemoryResponse ok resp = (false, {})) := by
  constructor
  · rintro (rfl | rfl | h)
    · cases resp <;>
        simp [UAGLEmotionService.HandleEmotionResponse,
          UAGLDialogueService.HandleDialogueResponse,
          UAGLMemoryService.HandleSearchMemoriesResponse,
          UAGLMemoryService.HandleGetMemoriesResponse]
    · cases ok <;>
        simp [UAGLEmotionService.HandleEmotionResponse,
          UAGLDialogueService.HandleDialogueResponse,
          UAGLMemoryService.HandleSearchMemoriesResponse,
          UAGLMemoryService.HandleGetMemoriesResponse]
    · cases ok with
      | false =>
        cases resp <;>
          simp [UAGLEmotionService.HandleEmotionResponse,
            UAGLDialogueService.HandleDialogueResponse,
            UAGLMemoryService.HandleSearchMemoriesResponse,
            UAGLMemoryService.HandleGetMemoriesResponse]
      | true =>
        cases resp with
        | none =>
          simp [UAGLEmotionService.HandleEmotionResponse,
            UAGLDialogueService.HandleDialogueResponse,
            UAGLMemoryService.HandleSearchMemoriesResponse,
            UAGLMemoryService.HandleGetMemoriesResponse]
        | some r =>
          have hr := h r rfl
          simp [UAGLEmotionService.HandleEmotionResponse,
            UAGLDialogueService.HandleDialogueResponse,
            UAGLMemoryService.HandleSearchMemoriesResponse,
            UAGLMemoryService.HandleGetMemoriesResponse, hr]
  · rintro (rfl | rfl | h)
    · cases resp <;> simp [UAGLMemoryService.HandleCreateMemoryResponse]
    · cases ok <;> simp [UAGLMemoryService.HandleCreateMemoryResponse]
    · cases ok with
      | false => cases resp <;> simp [UAGLMemoryService.HandleCreateMemoryResponse]
      | true =>
        cases resp with
        | none => simp [UAGLMemoryService.HandleCreateMemoryResponse]
        | some r =>
          have hr := h r rfl
          simp [UAGLMemoryService.HandleCreateMemoryResponse, hr.1, hr.2]

/-- Witness for C4: a 500 status with a well-formed, decodable body still
reports failure with the default response on every path. -/
theorem failure_paths_report_failure_witness :
    UAGLEmotionService.HandleEmotionResponse true
      (some ⟨500, some (.jObj [("emotion", .jStr "happy")])⟩) = (false, {}) ∧
    UAGLMemoryService.HandleCreateMemoryResponse true
      (some ⟨500, some (.jObj [("id", .jStr "m-1")])⟩) = (false, {}) := by
  have h1 := failure_paths_report_failure true
    (some ⟨500, some (.jObj [("emotion", JValue.jStr "happy")])⟩)
  have h2 := failure_paths_report_failure true
    (some ⟨500, some (.jObj [("id", JValue.jStr "m-1")])⟩)
  refine ⟨(h1.1 (Or.inr (Or.inr ?_))).1, h2.2 (Or.inr (Or.inr ?_))⟩ <;>
    (intro r hr; cases hr; decide)

/-- Collecting the string elements of an all-string array returns the
underlying strings unchanged, in order. -/
theorem filterMap_asString_map_jStr (xs : List String) :
    xs.filterMap (JValue.asString ∘ JValue.jStr) = xs := by
  induction xs with
  | nil => rfl
  | cons a t ih => simp [JValue.asString, ih, Function.comp]

/-- Claim C5: decoding a dialogue response preserves the order of the
`special_case_reasons` entries, defaults the list to empty when the key
is absent or not an array, and skips a non-string element without
aborting the rest of the list. -/
theorem special_case_reasons_decode (o : JObject) (xs ys : List String) (v : JValue) :
    (o.getField "special_case_reasons" = some (.jArr (xs.map .jStr)) →
      (UAGLDialogueService.DeserializeResponse (some (.jObj o))).SpecialCaseReasons = xs) ∧
    (o.getField "special_case_reasons" = none →
      (UAGLDialogueService.DeserializeResponse (some (.jObj o))).SpecialCaseReasons = []) ∧
    (∀ w, o.getField "special_case_reasons" = some w → w.asArray = none →
      (UAGLDialogueService.DeserializeResponse (some (.jObj o))).SpecialCaseReasons = []) ∧
    (v.asString = none →
      o.getField "special_case_reasons" = some (.jArr (xs.map .jStr ++ v :: ys.map .jStr)) →
      (UAGLDialogueService.DeserializeResponse (some (.jObj o))).SpecialCaseReasons
        = xs ++ ys) := by
  refine ⟨?_, ?_, ?_, ?_⟩
  · intro h
    simp [UAGLDialogueService.DeserializeResponse, parseTopLevelObject,
      JObject.tryGetArrayField, h, JValue.asArray, filterMap_asString_map_jStr]
  · intro h
    simp [UAGLDialogueService.DeserializeResponse, parseTopLevelObject,
      JObject.tryGetArrayField, h]
  · intro w h hw
    simp [UAGLDialogueService.DeserializeResponse, parseTopLevelObject,
      JObject.tryGetArrayField, h, hw]
  · intro hv h
    simp [UAGLDialogueService.DeserializeResponse, parseTopLevelObject,
      JObject.tryGetArrayField, h, JValue.asArray, List.filterMap_append,
      List.filterMap_cons, hv, filterMap_asString_map_jStr]

/-- Witness for C5: a three-element array whose middle element is a
number yields the two strings in order; a missing key and a non-array
value yield the empty list. -/
theorem special_case_reasons_decode_witness :
    (UAGLDialogueService.DeserializeResponse (some (.jObj
      [("special_case_reasons",
        .jArr [.jStr "win_streak", .jNum 7, .jStr "legendary"])]))).SpecialCaseReasons
      = ["win_streak", "legendary"] ∧
    (UAGLDialogueService.DeserializeResponse (some (.jObj
      [("dialogue", .jStr "hi")]))).SpecialCaseReasons = [] ∧
    (UAGLDialogueService.DeserializeResponse (some (.jObj
      [("special_case_reasons", .jStr "oops")]))).SpecialCaseReasons = [] := by
  refine ⟨?_, ?_, ?_⟩
  · exact (special_case_reasons_decode
      [("special_case_reasons",
        JValue.jArr [.jStr "win_streak", .jNum 7, .jStr "legendary"])]
      ["win_streak"] ["legendary"] (.jNum 7)).2.2.2 rfl rfl
  · exact (special_case_reasons_decode [("dialogue", JValue.jStr "hi")] [] []
      .jNull).2.1 rfl
  · exact (special_case_reasons_decode [("special_case_reasons", JValue.jStr "oops")]
      [] [] .jNull).2.2.1 (.jStr "oops") rfl rfl

/-- Counterexample to claim C1: a memory-creation completion with HTTP
status 200 whose body fails top-level JSON parsing invokes the handler
with success=false, not success=true. -/
theorem createMemory_unparseable_2xx_reports_failure :
    UAGLMemoryService.HandleCreateMemoryResponse true (some ⟨200, none⟩)
      = (false, {}) := by
  decide

/-- Claim C1 (amended): with an accepted HTTP status and a body that
fails top-level JSON parsing, the emotion, dialogue, search, context and
listing paths invoke their handlers with success=true and an all-default
response or empty list; the memory-creation path alone invokes its
handler with success=false and a default memory. -/
theorem unparseable_2xx_body_outcomes (body : Option JValue)
    (h : parseTopLevelObject body = none) :
    UAGLEmotionService.HandleEmotionResponse true (some ⟨200, body⟩) = (true, {}) ∧
    UAGLDialogueService.HandleDialogueResponse true (some ⟨200, body⟩) = (true, {}) ∧
    UAGLMemoryService.HandleSearchMemoriesResponse true (some ⟨200, body⟩) = (true, []) ∧
    UAGLMemoryService.HandleGetMemoriesResponse true (some ⟨200, body⟩) = (true, []) ∧
    UAGLMemoryService.HandleCreateMemoryResponse true (some ⟨200, body⟩) = (false, {}) ∧
    UAGLMemoryService.HandleCreateMemoryResponse true (some ⟨201, body⟩) = (false, {}) := by
  refine ⟨?_, ?_, ?_, ?_, ?_, ?_⟩ <;>
    simp [UAGLEmotionService.HandleEmotionResponse,
      UAGLDialogueService.HandleDialogueResponse,
      UAGLMemoryService.HandleSearchMemoriesResponse,
      UAGLMemoryService.HandleGetMemoriesResponse,
      UAGLMemoryService.HandleCreateMemoryResponse,
      UAGLEmotionService.DeserializeResponse,
      UAGLDialogueService.DeserializeResponse,
      UAGLMemoryService.DeserializeSearchResults,
      UAGLMemoryService.DeserializeMemories, h]

/-- Witness for the amended C1 at a body that is not valid JSON at all
and at one that parses to a non-object. -/
theorem unparseable_2xx_body_outcomes_witness :
    UAGLEmotionService.HandleEmotionResponse true (some ⟨200, none⟩) = (true, {}) ∧
    UAGLDialogueService.HandleDialogueResponse true (some ⟨200, some (.jStr "garbage")⟩)
      = (true, {}) ∧
    UAGLMemoryService.HandleCreateMemoryResponse true (some ⟨201, none⟩) = (false, {}) := by
  have h1 := unparseable_2xx_body_outcomes none rfl
  have h2 := unparseable_2xx_body_outcomes (some (.jStr "garbage")) rfl
  exact ⟨h1.1, h2.2.1, h1.2.2.2.2.2⟩
